import Mathlib

/-!
Shallow embedding of the moonshot-BACKEND EMR integration core, and proofs
about it.

The embedded code comes from:
  * backend/agent/emr_runner.py  — path navigation, the body-template
    engine, and the request-plan executor;
  * backend/config.py            — the credential broker and its token cache;
  * backend/agent/graph.py       — the query synthesizer, plan synthesizer
    and persistence pipeline stages.

Python conventions carried over by the embedding:
  * a JSON value is the result of `json.loads`; Python `None` and JSON
    `null` are the same value, modelled by `Json.null`;
  * time values are integers (seconds); the code's `time.time()` becomes an
    explicit `now : Int` parameter, and the two adjacent `time.time()` calls
    inside a broker resolution are identified;
  * HTTP transport, the LLM backend, `json.loads` and the Supabase upsert
    are modelled as explicit oracle parameters, so that every embedded
    function is a pure, executable Lean function;
  * optional string parameters use the empty string for Python's falsy
    `None`/`""` (the code only ever tests them for truthiness).
-/

/-- JSON-like values as produced by Python `json.loads`. Numbers are
modelled as integers; no claim in scope involves float arithmetic. -/
inductive Json where
  | null
  | bool (b : Bool)
  | num (n : Int)
  | str (s : String)
  | arr (xs : List Json)
  | obj (kvs : List (String × Json))

/-- Python `dict.get(k)`: the binding for the key, `null` (Python `None`)
when the key is absent. -/
def dictGet (kvs : List (String × Json)) (k : String) : Json :=
  match kvs with
  | [] => .null
  | (k', v) :: rest => if k' = k then v else dictGet rest k

/-- Python `str.split(sep)` for a single-character separator. -/
def splitOnCh (c : Char) : List Char → List (List Char)
  | [] => [[]]
  | x :: xs =>
    let r := splitOnCh c xs
    if x = c then [] :: r
    else
      match r with
      | h :: t => (x :: h) :: t
      | [] => [[x]]

/-- Python `int` on an all-digit string segment. -/
def digitsToNat (l : List Char) : Nat :=
  l.foldl (fun a c => a * 10 + (c.toNat - '0'.toNat)) 0

/-- One iteration of the inner loop body of `_get_path` (emr_runner.py
lines 17-22): index `obj` by the segment `seg`. A mapping is indexed by
key (missing key gives Python `None` = `null`); a sequence is indexed by
position when the segment is all digits and in range; every other
combination gives `null`. This totalised step reads the digit guard as
ASCII and evaluates the index totally; the real list arm evaluates
`int(seg)` behind a `str.isdigit()` guard and can raise `ValueError` —
`segStepPy` below keeps that error path, and `segStepPy_agrees` shows the
two coincide on ASCII index segments within the conversion limit. -/
def segStep (obj : Json) (seg : List Char) : Json :=
  match obj with
  | .obj kvs => dictGet kvs (String.mk seg)
  | .arr xs =>
    if seg.all Char.isDigit then
      if digitsToNat seg < xs.length then xs.getD (digitsToNat seg) .null else .null
    else .null
  | _ => .null

/-- The double loop of `_get_path`, flattened into one segment list (the
Python code iterates the parts split on the opening bracket and, inside,
each part's dot-split segments, in exactly this order; the early `return
None` exits both loops, and empty segments are skipped by `continue`). -/
def walkSegs (obj : Json) : List (List Char) → Json
  | [] => obj
  | s :: rest =>
    if s.isEmpty then walkSegs obj rest
    else
      match segStep obj s with
      | .null => .null
      | o => walkSegs o rest

/-- Embedding of `_get_path(obj, path)` from emr_runner.py: drop every closing bracket
(Python `path.replace` of the closing bracket with the empty string), split
on the opening bracket, split each part on the dot, then walk the segments
in order. This is the totalised reading used by the templating engine
theorems; `_get_path_py` below refines it with the `ValueError` path the
real function has, and `get_path_py_agrees` delimits where they coincide. -/
def _get_path (obj : Json) (path : String) : Json :=
  walkSegs obj ((splitOnCh '[' (path.data.filter (· ≠ ']'))).flatMap (splitOnCh '.'))

/-- Characters stripped by Python `str.strip()` (ASCII whitespace; the
paths and LLM texts in scope are ASCII). Also the characters matched by
the ASCII reading of the regex class `\s`. -/
def pyIsSpace (c : Char) : Bool :=
  c = ' ' || c = '\t' || c = '\n' || c = '\r' || c = '\x0b' || c = '\x0c'

/-- Boolean test that `p` is a prefix of `l` (Python `str.startswith`). -/
def hasPrefixCL : List Char → List Char → Bool
  | [], _ => true
  | _ :: _, [] => false
  | p :: ps, c :: cs => p = c && hasPrefixCL ps cs

/-- Boolean test that `p` is a suffix of `l` (Python `str.endswith`). -/
def hasSuffixCL (p l : List Char) : Bool :=
  hasPrefixCL p.reverse l.reverse

/-- Python `str.strip()` on a character list. -/
def pyStripCL (l : List Char) : List Char :=
  ((l.dropWhile pyIsSpace).reverse.dropWhile pyIsSpace).reverse

/-- Python `str.strip()`. -/
def pyStrip (s : String) : String :=
  String.mk (pyStripCL s.data)

/-- The placeholder test of `_apply_fhir_mapping` (emr_runner.py line 34):
the string value starts with two opening braces and ends with two closing
braces. -/
def placeholderCheck (s : String) : Bool :=
  hasPrefixCL ['\x7b', '\x7b'] s.data && hasSuffixCL ['\x7d', '\x7d'] s.data

/-- The path extracted from a placeholder string (emr_runner.py line 35):
Python `v[2:-2].strip()`. -/
def placeholderPath (s : String) : String :=
  String.mk (pyStripCL ((s.data.drop 2).dropLast.dropLast))

mutual

/-- Embedding of `_apply_fhir_mapping(body_template, fhir_mapping, fhir_bundle)` from
emr_runner.py lines 28-42. The guard `not fhir_mapping or body_template is
None` returns the template unchanged; a mapping is rebuilt key by key,
replacing placeholder string values by path navigation on the bundle and
recursing on everything else; a sequence is rebuilt element by element;
scalars fall through unchanged. The Python dict/list comprehensions are
written as the structural helpers `applyKvs` / `applyArr`. -/
def _apply_fhir_mapping (body_template : Json) (fhir_mapping : List (String × String))
    (fhir_bundle : Json) : Json :=
  if fhir_mapping.isEmpty then body_template
  else match body_template with
  | .null => .null
  | .obj kvs => .obj (applyKvs kvs fhir_mapping fhir_bundle)
  | .arr xs => .arr (applyArr xs fhir_mapping fhir_bundle)
  | t => t

/-- The dict comprehension of `_apply_fhir_mapping` (lines 32-39). -/
def applyKvs (kvs : List (String × Json)) (m : List (String × String)) (b : Json) :
    List (String × Json) :=
  match kvs with
  | [] => []
  | (k, v) :: rest =>
    (match v with
     | .str s =>
       if placeholderCheck s then (k, _get_path b (placeholderPath s))
       else (k, _apply_fhir_mapping (.str s) m b)
     | v => (k, _apply_fhir_mapping v m b)) :: applyKvs rest m b

/-- The list comprehension of `_apply_fhir_mapping` (line 41). -/
def applyArr (xs : List Json) (m : List (String × String)) (b : Json) : List Json :=
  match xs with
  | [] => []
  | x :: rest => _apply_fhir_mapping x m b :: applyArr rest m b

end

/-- String truncation, Python `s[:n]`. -/
def strTake (s : String) (n : Nat) : String :=
  String.mk (s.data.take n)

/-- Python `str.upper()` (ASCII). -/
def pyUpper (s : String) : String :=
  String.mk (s.data.map Char.toUpper)

/-- Python `str.rstrip("/")`. -/
def rstripSlash (s : String) : String :=
  String.mk ((s.data.reverse.dropWhile (· = '/')).reverse)

/-- Python `str.lstrip("/")`. -/
def lstripSlash (s : String) : String :=
  String.mk (s.data.dropWhile (· = '/'))

/-- Python dict assignment `d[k] = v`: replace in place, else append
(insertion-ordered dicts). -/
def dictSet (kvs : List (String × String)) (k v : String) : List (String × String) :=
  match kvs with
  | [] => [(k, v)]
  | (k', v') :: rest => if k' = k then (k, v) :: rest else (k', v') :: dictSet rest k v

/-- Assoc lookup for string dicts. -/
def dictFind (kvs : List (String × String)) (k : String) : Option String :=
  match kvs with
  | [] => none
  | (k', v) :: rest => if k' = k then some v else dictFind rest k

/-- Python `d.setdefault(k, v)`. -/
def dictSetdefault (kvs : List (String × String)) (k v : String) : List (String × String) :=
  match dictFind kvs k with
  | some _ => kvs
  | none => kvs ++ [(k, v)]

/-- The credential record consumed by the executor (`credentials` dict in
emr_runner.py). The code only reads `api_token`, `client_id`, `base_url`
and tests them for truthiness, so absent entries are the empty string.
A Python `None`/empty credentials dict is `Option.none` at the use sites. -/
structure Creds where
  api_token : String := ""
  client_id : String := ""
  base_url : String := ""

/-- One request spec dict as read by the executor via `spec.get`. Absent
keys are the field defaults; `fhir_mapping` holds the value after the
code's `spec.get("fhir_mapping") or` empty-dict normalisation and
`headers`/`url` likewise hold the post-`or` values read by
`_build_headers` / `_build_url`. -/
structure RSpec where
  url : String := ""
  headers : List (String × String) := []
  method : String := ""
  body_template : Json := .null
  fhir_mapping : List (String × String) := []

/-- Embedding of `_build_headers(spec, credentials)` from emr_runner.py lines 45-52
(the final `str(v)` pass is the identity on string-valued headers). -/
def _build_headers (spec : RSpec) (credentials : Option Creds) : List (String × String) :=
  match credentials with
  | none => spec.headers
  | some c =>
    let h1 := if c.api_token ≠ "" then
        dictSet spec.headers "Authorization" ("Bearer " ++ c.api_token)
      else spec.headers
    if c.client_id ≠ "" then dictSet h1 "client-id" c.client_id else h1

/-- Embedding of `_build_url(spec, credentials)` from emr_runner.py lines 55-60. -/
def _build_url (spec : RSpec) (credentials : Option Creds) : String :=
  let url := spec.url
  let base := rstripSlash ((credentials.map Creds.base_url).getD "")
  if base ≠ "" ∧ url ≠ "" ∧ hasPrefixCL "http".data url.data = false then
    base ++ "/" ++ lstripSlash url
  else url

/-- The request body computed by the executor for one spec (emr_runner.py
line 84): apply the mapping when a body template is present, else `None`. -/
def bodyFor (spec : RSpec) (bundle : Json) : Json :=
  match spec.body_template with
  | .null => .null
  | t => _apply_fhir_mapping t spec.fhir_mapping bundle

/-- The observable of one HTTP call issued by the executor: its position in
the run and the request as built (for GET the transport ignores the body). -/
structure IssuedCall where
  idx : Nat
  method : String
  url : String
  headers : List (String × String)
  body : Json

/-- The request the executor builds for the spec at position `i`
(emr_runner.py lines 78-84). -/
def mkCall (i : Nat) (spec : RSpec) (bundle : Json) (creds : Option Creds) : IssuedCall :=
  { idx := i
    method := pyUpper (if spec.method = "" then "GET" else spec.method)
    url := _build_url spec creds
    headers := dictSetdefault (_build_headers spec creds) "Content-Type" "application/json"
    body := bodyFor spec bundle }

/-- The tuple `execute_request_plan` returns: `(ok, status, body, error)`. -/
structure ExecResult where
  ok : Bool
  status : Option Nat
  body : String
  error : Option String

/-- Outcome of one HTTP call, supplied by the transport oracle:
`Except.error e` is a raised transport exception with message `e`;
`Except.ok (status, text)` is a completed response. -/
abbrev HttpOutcome := Except String (Nat × String)

/-- The spec loop of `execute_request_plan` (emr_runner.py lines 77-101),
carrying the position of the next spec and the `last_status`/`last_body`
accumulators. Besides the result, it returns the list of calls issued, in
order — the observable that lets the theorems speak about which specs were
ever sent to the transport. -/
def execLoop (http : Nat → RSpec → HttpOutcome) (bundle : Json) (creds : Option Creds) :
    List RSpec → Nat → Option Nat → String → ExecResult × List IssuedCall
  | [], _, lastStatus, lastBody =>
    ({ ok := true, status := lastStatus, body := lastBody, error := none }, [])
  | spec :: rest, i, _, _ =>
    let call := mkCall i spec bundle creds
    match http i spec with
    | .error e => ({ ok := false, status := none, body := "", error := some e }, [call])
    | .ok (st, text) =>
      let lb := strTake text 2000
      if 400 ≤ st then
        ({ ok := false, status := some st, body := lb
           error := some ("HTTP " ++ toString st ++ ": " ++ strTake lb 500) }, [call])
      else
        let res := execLoop http bundle creds rest (i + 1) (some st) lb
        (res.1, call :: res.2)

/-- A request plan as read by the executor: the two spec lists after the
code's `request_plan.get(key) or` empty-list normalisation. -/
structure RequestPlan where
  push_fhir : List RSpec := []
  get_fhir : List RSpec := []

/-- Embedding of `execute_request_plan(request_plan, fhir_bundle, credentials,
execute_get=...)` from emr_runner.py lines 63-101, with the HTTP transport
as an oracle. -/
def execute_request_plan (http : Nat → RSpec → HttpOutcome) (request_plan : RequestPlan)
    (fhir_bundle : Json) (credentials : Option Creds) (execute_get : Bool) :
    ExecResult × List IssuedCall :=
  let specs := if execute_get then request_plan.get_fhir else request_plan.push_fhir
  if specs.isEmpty then
    ({ ok := false, status := none, body := "", error := some "No request specs in plan" }, [])
  else execLoop http fhir_bundle credentials specs 0 none ""

/-- The failure result the executor returns for the spec whose call had
outcome `o` (emr_runner.py lines 93-100), meaningful when `o` is a raised
exception or a response with status at least 400. -/
def specFailResult : HttpOutcome → ExecResult
  | .error e => { ok := false, status := none, body := "", error := some e }
  | .ok (st, text) =>
    let lb := strTake text 2000
    { ok := false, status := some st, body := lb
      error := some ("HTTP " ++ toString st ++ ": " ++ strTake lb 500) }

/-- The EMR login endpoint hit by a token exchange (config.py lines 86 and
107): `{base_url}/connect-auth/v1/account/login` after base `rstrip("/")`. -/
def connect_login_url (base_url : String) : String :=
  rstripSlash base_url ++ "/connect-auth/v1/account/login"

/-- The body of a Connect Login response as read by the fetch helpers:
`access_token` (empty string for a missing/empty token, which the code
treats as an error) and the optional `expires_in` field. -/
structure FetchResp where
  access_token : String := ""
  expires_in : Option Int := none

/-- A cached token record: `access_token` plus absolute `expires_at`. -/
structure TokenEntry where
  access_token : String
  expires_at : Int

/-- The composite key of the shared `_emr_connect_cache` dict:
`(domain, client_id, client_secret, base_url)`. -/
abbrev CacheKey := String × String × String × String

/-- The `_emr_connect_cache` module dict. -/
abbrev TokenCache := List (CacheKey × TokenEntry)

/-- Cache lookup, Python `_emr_connect_cache.get(cache_key)`. -/
def cacheGet (cache : TokenCache) (k : CacheKey) : Option TokenEntry :=
  match cache with
  | [] => none
  | (k', e) :: rest => if k' = k then some e else cacheGet rest k

/-- Cache store, Python `_emr_connect_cache[cache_key] = entry`. -/
def cacheSet (cache : TokenCache) (k : CacheKey) (e : TokenEntry) : TokenCache :=
  match cache with
  | [] => [(k, e)]
  | (k', e') :: rest => if k' = k then (k, e) :: rest else (k', e') :: cacheSet rest k e

/-- The process configuration one broker domain reads (the EKAEMR_* or
EKASCRIBE_* module constants after their env-and-legacy fallback chain has
been resolved at import time; empty string for an unset value). -/
structure EnvCfg where
  api_token : String := ""
  client_id : String := ""
  client_secret : String := ""
  base_url : String := ""

/-- The type an oracle for `_fetch_connect_token_from_params`'s HTTP POST
has: the login response for given `(client_id, client_secret, base_url)`. -/
abbrev LoginOracle := String → String → String → FetchResp

/-- Authorization header list built from a bearer token. -/
def bearerHeaders (token : String) : List (String × String) :=
  [("Authorization", "Bearer " ++ token)]

/-- Embedding of `_fetch_connect_token_from_params(client_id, client_secret, base_url)`
from config.py lines 106-120: POST the login endpoint, return the response
`access_token`, raising when it is missing. The response's `expires_in`
field is not read by this function. -/
def _fetch_connect_token_from_params (fetch : LoginOracle)
    (client_id client_secret base_url : String) : Except String String :=
  let data := fetch client_id client_secret base_url
  if data.access_token = "" then .error "Connect Login response missing access_token"
  else .ok data.access_token

/-- Embedding of `_fetch_connect_token_scribe()` from config.py lines 85-103, returning
the cache record it stores into `_scribe_token_cache`: the token together
with `expires_at = now + (int(expires_in, default 1800) - 60)`. `resp` is
the login response of the POST it performs. -/
def _fetch_connect_token_scribe (resp : FetchResp) (now : Int) : Except String TokenEntry :=
  if resp.access_token = "" then .error "Connect Login response missing access_token"
  else .ok { access_token := resp.access_token
             expires_at := now + ((resp.expires_in.getD 1800) - 60) }

/-- Embedding of `validate_eka_emr_config` / `validate_eka_scribe_config` (config.py
lines 64-82) over the resolved domain configuration. -/
def validate_eka_domain_config (env : EnvCfg) : Except String Unit :=
  if env.api_token ≠ "" then .ok ()
  else if env.client_id ≠ "" ∧ env.client_secret ≠ "" then .ok ()
  else .error "domain requires an api token or a client_id + client_secret pair"

/-- Embedding of `get_eka_emr_headers()` from config.py lines 160-173: the env-default
EMR resolution. Returns the headers, the possibly updated
`_emr_connect_cache`, and whether a login exchange was performed. -/
def get_eka_emr_headers (fetch : LoginOracle) (env : EnvCfg) (now : Int)
    (cache : TokenCache) : Except String (List (String × String) × TokenCache × Bool) :=
  match validate_eka_domain_config env with
  | .error e => .error e
  | .ok _ =>
    if env.client_id ≠ "" ∧ env.client_secret ≠ "" then
      let key : CacheKey := ("emr", env.client_id, env.client_secret, env.base_url)
      let doExchange : Except String (List (String × String) × TokenCache × Bool) :=
        match _fetch_connect_token_from_params fetch env.client_id env.client_secret env.base_url with
        | .error e => .error e
        | .ok token =>
          .ok (bearerHeaders token,
               cacheSet cache key { access_token := token, expires_at := now + 1800 - 60 },
               true)
      match cacheGet cache key with
      | none => doExchange
      | some c => if c.expires_at ≤ now then doExchange else .ok (bearerHeaders c.access_token, cache, false)
    else .ok (bearerHeaders env.api_token, cache, false)

/-- Embedding of `get_eka_scribe_headers()` from config.py lines 123-132: the env-default
scribe resolution over the `_scribe_token_cache` record. `resp` is the
login response were `_fetch_connect_token_scribe` to be called. -/
def get_eka_scribe_headers (resp : FetchResp) (env : EnvCfg) (now : Int)
    (sc : Option TokenEntry) : Except String (List (String × String) × Option TokenEntry × Bool) :=
  match validate_eka_domain_config env with
  | .error e => .error e
  | .ok _ =>
    if env.client_id ≠ "" ∧ env.client_secret ≠ "" then
      let doExchange : Except String (List (String × String) × Option TokenEntry × Bool) :=
        match _fetch_connect_token_scribe resp now with
        | .error e => .error e
        | .ok entry => .ok (bearerHeaders entry.access_token, some entry, true)
      match sc with
      | none => doExchange
      | some c =>
        if c.access_token = "" ∨ c.expires_at ≤ now then doExchange
        else .ok (bearerHeaders c.access_token, some c, false)
    else .ok (bearerHeaders env.api_token, sc, false)

/-- The base URL resolved by the `*_from_params` brokers (config.py lines
142 and 183): first truthy of the explicit parameter, the domain default,
and the hard-coded production URL, then `rstrip("/")`. -/
def paramsBase (env : EnvCfg) (base_url : String) : String :=
  rstripSlash (if base_url ≠ "" then base_url
               else if env.base_url ≠ "" then env.base_url
               else "https://api.eka.care")

/-- Embedding of `get_eka_emr_headers_from_params(...)` from config.py lines 176-198.
Outcome: `((headers, base), cache', exchanged)` where `exchanged` records
whether a login exchange was performed during this resolution. -/
def get_eka_emr_headers_from_params (fetch : LoginOracle) (env : EnvCfg) (now : Int)
    (api_token client_id client_secret base_url : String) (cache : TokenCache) :
    Except String ((List (String × String) × String) × TokenCache × Bool) :=
  let base := paramsBase env base_url
  if api_token ≠ "" then .ok ((bearerHeaders (pyStrip api_token), base), cache, false)
  else if client_id ≠ "" ∧ client_secret ≠ "" then
    let cid := pyStrip client_id
    let csec := pyStrip client_secret
    if cid = "" ∨ csec = "" then .error "client_id and client_secret must be non-empty"
    else
      let key : CacheKey := ("emr", cid, csec, base)
      let doExchange : Except String ((List (String × String) × String) × TokenCache × Bool) :=
        match _fetch_connect_token_from_params fetch cid csec base with
        | .error e => .error e
        | .ok token =>
          .ok ((bearerHeaders token, base),
               cacheSet cache key { access_token := token, expires_at := now + 1800 - 60 },
               true)
      match cacheGet cache key with
      | none => doExchange
      | some c =>
        if c.expires_at > now then .ok ((bearerHeaders c.access_token, base), cache, false)
        else doExchange
  else
    match get_eka_emr_headers fetch env now cache with
    | .error e => .error e
    | .ok (h, cache', ex) => .ok ((h, base), cache', ex)

/-- Embedding of `get_eka_scribe_headers_from_params(...)` from config.py lines 135-157.
Same shape as the EMR variant, with cache domain `"scribe"` in the shared
`_emr_connect_cache` and the env fallback going through the scribe record
`sc` (`_scribe_token_cache`); `respEnv` is the login response of the env
fallback's POST were it performed. -/
def get_eka_scribe_headers_from_params (fetch : LoginOracle) (respEnv : FetchResp)
    (env : EnvCfg) (now : Int)
    (api_token client_id client_secret base_url : String) (cache : TokenCache)
    (sc : Option TokenEntry) :
    Except String ((List (String × String) × String) × TokenCache × Option TokenEntry × Bool) :=
  let base := paramsBase env base_url
  if api_token ≠ "" then .ok ((bearerHeaders (pyStrip api_token), base), cache, sc, false)
  else if client_id ≠ "" ∧ client_secret ≠ "" then
    let cid := pyStrip client_id
    let csec := pyStrip client_secret
    if cid = "" ∨ csec = "" then .error "client_id and client_secret must be non-empty"
    else
      let key : CacheKey := ("scribe", cid, csec, base)
      let doExchange :
          Except String ((List (String × String) × String) × TokenCache × Option TokenEntry × Bool) :=
        match _fetch_connect_token_from_params fetch cid csec base with
        | .error e => .error e
        | .ok token =>
          .ok ((bearerHeaders token, base),
               cacheSet cache key { access_token := token, expires_at := now + 1800 - 60 },
               sc, true)
      match cacheGet cache key with
      | none => doExchange
      | some c =>
        if c.expires_at > now then .ok ((bearerHeaders c.access_token, base), cache, sc, false)
        else doExchange
  else
    match get_eka_scribe_headers respEnv env now sc with
    | .error e => .error e
    | .ok (h, sc', ex) => .ok ((h, base), cache, sc', ex)

/-- Python truthiness of a JSON value. -/
def jsonTruthy : Json → Bool
  | .null => false
  | .bool b => b
  | .num n => n ≠ 0
  | .str s => s ≠ ""
  | .arr xs => !xs.isEmpty
  | .obj kvs => !kvs.isEmpty

/-- Assoc lookup returning an `Option` (Python `k in d` view of a dict). -/
def dictFindJ (kvs : List (String × Json)) (k : String) : Option Json :=
  match kvs with
  | [] => none
  | (k', v) :: rest => if k' = k then some v else dictFindJ rest k

/-- The fixed fallback queries of `split_queries` (graph.py line 60). -/
def fallbackQueries (url : String) : Json :=
  .arr [.str (url ++ " API documentation"), .str "EMR REST API endpoints", .str "FHIR API push"]

/-- The query-extraction core of the `split_queries` node (graph.py lines
56-61). `parsed` is the outcome of `_parse_json_from_llm` on the LLM text:
`none` when `json.loads` raised `JSONDecodeError` (the only error, besides
`KeyError`, the `except` clause catches — and it is caught, yielding the
fallback list). On a successful parse, `parsed.get("queries") or` the empty
list is evaluated: a dict result yields its truthy `queries` value or the
empty list; a non-dict parse result has no `.get`, so the `AttributeError`
propagates out of the node (it is not in the caught exception tuple). -/
def split_queries (url : String) (parsed : Option Json) : Except String Json :=
  match parsed with
  | none => .ok (fallbackQueries url)
  | some (.obj kvs) =>
    let v := dictGet kvs "queries"
    .ok (if jsonTruthy v then v else .arr [])
  | some _ => .error "AttributeError: no attribute get"

/-- Three backticks, the code-fence delimiter of the regex in
`_parse_json_from_llm` (graph.py line 31). -/
def fenceCL : List Char := ['\x60', '\x60', '\x60']

/-- The optional language tag consumed right after an opening fence. -/
def jsonTagCL : List Char := ['j', 's', 'o', 'n']

/-- Index of the first occurrence of `p` as a contiguous run of `l`. -/
def findSub (p : List Char) : List Char → Option Nat
  | [] => if hasPrefixCL p [] then some 0 else none
  | c :: t => if hasPrefixCL p (c :: t) then some 0 else (findSub p t).map (· + 1)

/-- The fence-stripping effect of the regex search in `_parse_json_from_llm`
(graph.py lines 31-33): locate the first opening fence, consume an optional
`json` tag, capture lazily up to the next fence, and strip the capture.
When the regex does not match (no opening fence, or an opening fence with
no closing fence anywhere after it), the text is left unchanged. The lazy
capture bounded by the whitespace-run-then-fence tail is equivalent, after
the final `strip()`, to stripping everything up to the next fence
occurrence, which is what this function computes. -/
def stripFenceCL (s : List Char) : List Char :=
  match findSub fenceCL s with
  | none => s
  | some i =>
    let after := s.drop (i + 3)
    let after2 := if hasPrefixCL jsonTagCL after then after.drop 4 else after
    match findSub fenceCL after2 with
    | none => s
    | some j => pyStripCL (after2.take j)

/-- Embedding of `_parse_json_from_llm(text)` from graph.py lines 29-34, with
`json.loads` as the oracle `loads` (`none` models a raised
`json.JSONDecodeError`). -/
def _parse_json_from_llm (loads : String → Option Json) (text : String) : Option Json :=
  loads (String.mk (stripFenceCL (pyStripCL text.data)))

/-- The empty plan `plan_emr` falls back to (graph.py line 111). -/
def emptyPlanJson : Json :=
  .obj [("push_fhir", .arr []), ("get_fhir", .arr [])]

/-- The parse-and-fallback core of the `plan_emr` node (graph.py lines
108-111): the parsed model output, or the empty plan when `json.loads`
raised `JSONDecodeError`. -/
def plan_emr (loads : String → Option Json) (text : String) : Json :=
  match _parse_json_from_llm loads text with
  | some plan => plan
  | none => emptyPlanJson

/-- A validated `RequestSpec` (models.py lines 27-33) as persisted. -/
structure RequestSpecM where
  method : String := "POST"
  url : String := ""
  headers : List (String × String) := []
  body_template : Json := .null
  fhir_mapping : List (String × String) := []
  description : String := ""

/-- A validated `EMRMappingResult` (models.py lines 36-38). -/
structure EMRMappingResultM where
  push_fhir : List RequestSpecM := []
  get_fhir : List RequestSpecM := []

/-- What the `persist_mapping` node returns into the pipeline state. -/
structure PersistOut where
  final_mapping : EMRMappingResultM
  success : Bool

/-- The `persist_mapping` node (graph.py lines 117-136) after the pydantic
validation step: `push_specs`/`get_specs` are the validated spec lists of
the state's request plan, `emr_id?` is `state.get("emr_id")` (falsy becomes
`"default"`), and `upsert` is the oracle for
`services.supabase_client.upsert_emr_mapping`, whose raised exception is
caught, logged and swallowed — both branches return the mapping with
`success = True`. -/
def persist_mapping
    (upsert : String → List RequestSpecM → List RequestSpecM → Option String → Except String Unit)
    (push_specs get_specs : List RequestSpecM) (emr_id? : Option String)
    (api_doc_url : Option String) : PersistOut :=
  let emr_id := match emr_id? with
    | some s => if s = "" then "default" else s
    | none => "default"
  let mapping : EMRMappingResultM := { push_fhir := push_specs, get_fhir := get_specs }
  match upsert emr_id push_specs get_specs api_doc_url with
  | .ok _ => { final_mapping := mapping, success := true }
  | .error _ => { final_mapping := mapping, success := true }

/-- The value substitution `_apply_fhir_mapping` performs on one mapping
value (emr_runner.py lines 34-38), stated as the spec reads it: a
placeholder string becomes the path-navigation result, everything else is
processed recursively. -/
def substVal (m : List (String × String)) (b : Json) : Json → Json
  | .str s =>
    if placeholderCheck s then _get_path b (placeholderPath s)
    else _apply_fhir_mapping (.str s) m b
  | v => _apply_fhir_mapping v m b

/-- An HTTP outcome the executor treats as a failure: a raised transport
exception, or a response with status at least 400. -/
def FailOutcome (o : HttpOutcome) : Prop :=
  (∃ e, o = .error e) ∨ (∃ st text, o = .ok (st, text) ∧ 400 ≤ st)

/-- An HTTP outcome the executor treats as a success. -/
def SuccessOutcome (o : HttpOutcome) : Prop :=
  ∃ st text, o = .ok (st, text) ∧ st < 400

/-- The `_emr_connect_cache` key a `*_from_params` broker uses for a raw
parameter pair under the given domain. -/
def paramsKey (domain : String) (env : EnvCfg) (cid csec burl : String) : CacheKey :=
  (domain, pyStrip cid, pyStrip csec, paramsBase env burl)

/-- A login oracle whose response declares a two-hour `expires_in`. -/
def longExpiryFetch : LoginOracle :=
  fun _ _ _ => { access_token := "tok", expires_in := some 7200 }

/-- A transport for which the first spec's call returns HTTP 500 and every
later call would return HTTP 200. -/
def firstFailsHttp : Nat → RSpec → HttpOutcome :=
  fun i _ => if i = 0 then .ok (500, "boom") else .ok (200, "ok")

/-- A two-spec push plan of default specs. -/
def twoSpecPlan : RequestPlan :=
  { push_fhir := [{}, {}] }

/-- A login oracle returning a fixed fresh token. -/
def freshTokenFetch : LoginOracle :=
  fun _ _ _ => { access_token := "fresh", expires_in := some 1800 }

/-- Superscript digit characters U+00B9, U+00B2, U+00B3, U+2070 and
U+2074-2079: Unicode Numeric_Type=Digit, but no decimal value. -/
def isSuperscriptDigitCh (c : Char) : Bool :=
  c = '¹' || c = '²' || c = '³' || c = '⁰' || ('⁴' ≤ c && c ≤ '⁹')

/-- Subscript digit characters U+2080-2089: Numeric_Type=Digit, but no
decimal value. -/
def isSubscriptDigitCh (c : Char) : Bool :=
  '₀' ≤ c && c ≤ '₉'

/-- Arabic-Indic decimal digit characters U+0660-0669:
Numeric_Type=Decimal, with decimal values 0-9. -/
def isArabicIndicDigitCh (c : Char) : Bool :=
  '٠' ≤ c && c ≤ '٩'

/-- Python per-character `str.isdigit()` on the Unicode fragment this
development models: the ASCII digits, the Arabic-Indic decimal digits, and
the superscript/subscript digits. CPython accepts all of them in
`str.isdigit`, but only the first two classes carry the decimal value
`int()` needs. -/
def pyIsDigitCh (c : Char) : Bool :=
  c.isDigit || isArabicIndicDigitCh c || isSuperscriptDigitCh c || isSubscriptDigitCh c

/-- Unicode decimal value as used by `int()`, on the modelled fragment:
ASCII and Arabic-Indic digits have one; superscript and subscript digits
(Numeric_Type=Digit only) do not, so `int()` rejects them. -/
def pyDecimalValCh (c : Char) : Option Nat :=
  if c.isDigit then some (c.toNat - '0'.toNat)
  else if isArabicIndicDigitCh c then some (c.toNat - 0x660)
  else none

/-- One step of `int(seg)`'s digit accumulation, propagating the
`ValueError` raised on a digit without a decimal value. -/
def pyIntStep (acc : Except String Nat) (c : Char) : Except String Nat :=
  match acc, pyDecimalValCh c with
  | .ok n, some d => .ok (n * 10 + d)
  | .ok _, none => .error "ValueError: invalid literal for int() with base 10"
  | e, _ => e

/-- Python `int(seg)` on a segment that passed the `str.isdigit()` guard:
raises past the default 4300-digit integer-string conversion limit, raises
on a digit with no decimal value, and otherwise yields the decimal value
(digits of any modelled script mix positionally, as in CPython). -/
def pyIntOfDigitSeg (seg : List Char) : Except String Nat :=
  if 4300 < seg.length then
    .error "ValueError: Exceeds the limit (4300 digits) for integer string conversion"
  else seg.foldl pyIntStep (.ok 0)

/-- Refinement of `segStep` that keeps the raising behaviour of the real
inner loop body (emr_runner.py lines 19-20): the list arm evaluates
`int(seg)` whenever `seg.isdigit()` held, and that evaluation raises on an
isdigit-but-not-decimal segment or an over-long one. -/
def segStepPy (obj : Json) (seg : List Char) : Except String Json :=
  match obj with
  | .obj kvs => .ok (dictGet kvs (String.mk seg))
  | .arr xs =>
    if seg.all pyIsDigitCh then
      match pyIntOfDigitSeg seg with
      | .error e => .error e
      | .ok n => .ok (if n < xs.length then xs.getD n .null else .null)
    else .ok .null
  | _ => .ok .null

/-- The segment walk over the raising step: a raised `ValueError` aborts
navigation; otherwise the walk proceeds as in `walkSegs`. -/
def walkSegsPy (obj : Json) : List (List Char) → Except String Json
  | [] => .ok obj
  | s :: rest =>
    if s.isEmpty then walkSegsPy obj rest
    else
      match segStepPy obj s with
      | .error e => .error e
      | .ok .null => .ok .null
      | .ok o => walkSegsPy o rest

/-- Refined embedding of `_get_path` that keeps the error path of
`int(seg)`: an `Except.error` is a `ValueError` propagating out of the
real `_get_path`, which is therefore not total. -/
def _get_path_py (obj : Json) (path : String) : Except String Json :=
  walkSegsPy obj ((splitOnCh '[' (path.data.filter (· ≠ ']'))).flatMap (splitOnCh '.'))

/-- C9: for every request plan, bundle and credential record, if the spec
list selected by the direction flag is empty, `execute_request_plan`
returns exactly `(False, None, "", "No request specs in plan")` and issues
no HTTP call. -/
theorem executor_empty_specs (http : Nat → RSpec → HttpOutcome) (plan : RequestPlan)
    (bundle : Json) (creds : Option Creds) (eg : Bool)
    (h : (if eg then plan.get_fhir else plan.push_fhir) = []) :
    execute_request_plan http plan bundle creds eg =
      ({ ok := false, status := none, body := "", error := some "No request specs in plan" }, []) := by
  unfold execute_request_plan
  rw [h]
  rfl

/-- Witness for C9 at a concrete empty push plan. -/
theorem executor_empty_specs_witness :
    execute_request_plan firstFailsHttp { push_fhir := [], get_fhir := [{}] } .null none false =
      ({ ok := false, status := none, body := "", error := some "No request specs in plan" }, []) :=
  executor_empty_specs firstFailsHttp _ .null none false rfl

/-- C10: the persist stage returns the final mapping with `success = true`
for every input, and in particular a raising upsert never flips the
reported success to false. -/
theorem persist_mapping_success_always
    (upsert : String → List RequestSpecM → List RequestSpecM → Option String → Except String Unit)
    (push_specs get_specs : List RequestSpecM) (emr_id? api_doc_url : Option String) :
    (persist_mapping upsert push_specs get_specs emr_id? api_doc_url).success = true ∧
    (persist_mapping upsert push_specs get_specs emr_id? api_doc_url).final_mapping =
      { push_fhir := push_specs, get_fhir := get_specs } ∧
    (∀ e, persist_mapping (fun _ _ _ _ => .error e) push_specs get_specs emr_id? api_doc_url =
      { final_mapping := { push_fhir := push_specs, get_fhir := get_specs }, success := true }) := by
  refine ⟨?_, ?_, fun e => rfl⟩ <;>
    · unfold persist_mapping
      split <;> (dsimp only []; split <;> rfl)

/-- C5 (code bug): when the model output parses to a JSON object without a
`queries` key, `split_queries` yields the empty query list — the fallback
list (second conjunct) is only produced when `json.loads` itself raises,
because `dict.get` never raises the `KeyError` the `except` clause was
written to catch. -/
theorem split_queries_missing_key_empty :
    split_queries "https://docs.example.com" (some (.obj [])) = .ok (.arr []) ∧
    split_queries "https://docs.example.com" none =
      .ok (fallbackQueries "https://docs.example.com") :=
  ⟨rfl, rfl⟩

/-- C2: with an empty `fhir_mapping` (or a `None` body template) the
templating engine returns the template unchanged, and this is exactly the
body computation the executor performs for every spec it issues. -/
theorem apply_mapping_empty_gate :
    (∀ t b, _apply_fhir_mapping t [] b = t) ∧
    (∀ m b, _apply_fhir_mapping .null m b = .null) ∧
    (∀ (spec : RSpec) (bundle : Json), spec.fhir_mapping = [] →
      bodyFor spec bundle = spec.body_template) ∧
    (∀ i spec bundle creds, (mkCall i spec bundle creds).body = bodyFor spec bundle) := by
  have h1 : ∀ t b, _apply_fhir_mapping t [] b = t := by
    intro t b
    unfold _apply_fhir_mapping
    rfl
  refine ⟨h1, ?_, ?_, fun i spec bundle creds => rfl⟩
  · intro m b
    unfold _apply_fhir_mapping
    cases m <;> rfl
  · intro spec bundle h
    unfold bodyFor
    cases hbt : spec.body_template <;> simp_all [h1]

/-- Witness for C2's executor-gate conjunct at a concrete spec. -/
theorem apply_mapping_empty_gate_witness :
    bodyFor { body_template := .num 1, fhir_mapping := [] } .null = .num 1 :=
  apply_mapping_empty_gate.2.2.1 { body_template := .num 1, fhir_mapping := [] } .null rfl

/-- On an all-ASCII-digit segment the raising accumulation agrees with the
total one, from any accumulator. -/
theorem pyIntStep_foldl : ∀ (seg : List Char), seg.all Char.isDigit = true →
    ∀ n : Nat, seg.foldl pyIntStep (Except.ok n) =
      .ok (seg.foldl (fun a c => a * 10 + (c.toNat - '0'.toNat)) n) := by
  intro seg
  induction seg with
  | nil => intro _ n; rfl
  | cons c t ih =>
    intro h n
    simp only [List.all_cons, Bool.and_eq_true] at h
    have hdec : pyDecimalValCh c = some (c.toNat - '0'.toNat) := by
      unfold pyDecimalValCh
      rw [if_pos h.1]
    simp [List.foldl, pyIntStep, hdec, ih h.2]

/-- On an all-ASCII-digit segment within the conversion limit, the modelled
`int()` succeeds with the total digit value. -/
theorem pyIntOfDigitSeg_ascii (seg : List Char) (h : seg.all Char.isDigit = true)
    (hle : seg.length ≤ 4300) : pyIntOfDigitSeg seg = .ok (digitsToNat seg) := by
  unfold pyIntOfDigitSeg digitsToNat
  rw [if_neg (by omega), pyIntStep_foldl seg h 0]

/-- ASCII digit segments pass the Python digit guard too. -/
theorem all_isDigit_pyIsDigit (seg : List Char) (h : seg.all Char.isDigit = true) :
    seg.all pyIsDigitCh = true := by
  rw [List.all_eq_true] at h ⊢
  intro c hc
  have hcd : c.isDigit = true := by simpa using h c hc
  unfold pyIsDigitCh
  rw [hcd]
  rfl

/-- A safe segment: either it fails the Python digit guard, or it is ASCII
digits within the conversion limit. On safe segments the raising step
agrees with the totalised one. -/
theorem segStepPy_agrees (obj : Json) (seg : List Char)
    (hseg : seg.all pyIsDigitCh = true → seg.all Char.isDigit = true ∧ seg.length ≤ 4300) :
    segStepPy obj seg = .ok (segStep obj seg) := by
  cases obj with
  | arr xs =>
    by_cases hd : seg.all pyIsDigitCh = true
    · obtain ⟨ha, hl⟩ := hseg hd
      simp [segStepPy, segStep, hd, ha, pyIntOfDigitSeg_ascii seg ha hl]
    · have ha : seg.all Char.isDigit = false := by
        cases hcla : seg.all Char.isDigit with
        | false => rfl
        | true => exact absurd (all_isDigit_pyIsDigit seg hcla) hd
      simp [segStepPy, segStep, hd, ha]
  | null => rfl
  | bool b => rfl
  | num n => rfl
  | str s => rfl
  | obj kvs => rfl

/-- On a walk whose segments are all safe, the raising walk agrees with
the totalised one. -/
theorem walkSegsPy_agrees : ∀ (segs : List (List Char)),
    (∀ s ∈ segs, s.all pyIsDigitCh = true → s.all Char.isDigit = true ∧ s.length ≤ 4300) →
    ∀ obj, walkSegsPy obj segs = .ok (walkSegs obj segs) := by
  intro segs
  induction segs with
  | nil => intro _ obj; rfl
  | cons s rest ih =>
    intro h obj
    have hs := h s (List.mem_cons_self s rest)
    have hrest := fun t ht => h t (List.mem_cons_of_mem s ht)
    unfold walkSegsPy walkSegs
    by_cases he : s.isEmpty
    · simp [he, ih hrest obj]
    · simp only [he, if_false, Bool.false_eq_true]
      rw [segStepPy_agrees obj s hs]
      cases segStep obj s with
      | null => rfl
      | bool b => exact ih hrest _
      | num n => exact ih hrest _
      | str s' => exact ih hrest _
      | arr xs => exact ih hrest _
      | obj kvs => exact ih hrest _

/-- When every bracket segment of the parsed path is safe — it fails the
digit guard, or is ASCII digits of at most 4300 characters — the refined
navigation returns exactly the totalised navigation's value. -/
theorem get_path_py_agrees (obj : Json) (path : String)
    (h : ∀ s ∈ (splitOnCh '[' (path.data.filter (· ≠ ']'))).flatMap (splitOnCh '.'),
      s.all pyIsDigitCh = true → s.all Char.isDigit = true ∧ s.length ≤ 4300) :
    _get_path_py obj path = .ok (_get_path obj path) := by
  unfold _get_path_py _get_path
  exact walkSegsPy_agrees _ h obj

/-- C7 (code bug): the real `_get_path` is not total, contrary to the
claim and the spec's forgiving-extractor intent. On the refined embedding
`_get_path_py`, the superscript-two index segment passes the
`str.isdigit()` guard but `int()` rejects it, so navigation raises a
`ValueError` instead of degrading to null; a genuine non-ASCII decimal
digit instead indexes the sequence; and the spec's own three examples
evaluate as claimed. -/
theorem get_path_raises_on_isdigit_gap :
    _get_path_py (.obj [("a", .arr [.num 1, .num 2])]) "a[²]" =
      .error "ValueError: invalid literal for int() with base 10" ∧
    _get_path_py (.obj [("a", .arr [.num 1, .num 2])]) "a[١]" = .ok (.num 2) ∧
    _get_path_py (.obj [("entry", .arr [.obj [("resource", .obj [("id", .str "42")])]])])
      "entry[0].resource.id" = .ok (.str "42") ∧
    _get_path_py (.obj []) "a.b.c" = .ok .null ∧
    _get_path_py (.obj [("a", .arr [.num 1, .num 2])]) "a[5]" = .ok .null :=
  ⟨rfl, rfl, rfl, rfl, rfl⟩

/-- A boolean prefix test holds exactly when the list splits off `p`. -/
theorem hasPrefixCL_iff (p : List Char) : ∀ l, hasPrefixCL p l = true ↔ ∃ t, l = p ++ t := by
  induction p with
  | nil => intro l; simp [hasPrefixCL]
  | cons a ps ih =>
    intro l
    cases l with
    | nil => simp [hasPrefixCL]
    | cons c cs =>
      simp only [hasPrefixCL, Bool.and_eq_true, decide_eq_true_eq, ih, List.cons_append,
        List.cons.injEq]
      constructor
      · rintro ⟨rfl, t, rfl⟩; exact ⟨t, rfl, rfl⟩
      · rintro ⟨t, rfl, rfl⟩; exact ⟨rfl, t, rfl⟩

/-- A boolean suffix test holds exactly when the list ends in `p`. -/
theorem hasSuffixCL_iff (p l : List Char) : hasSuffixCL p l = true ↔ ∃ t, l = t ++ p := by
  unfold hasSuffixCL
  rw [hasPrefixCL_iff]
  constructor
  · rintro ⟨t, ht⟩
    refine ⟨t.reverse, ?_⟩
    have := congrArg List.reverse ht
    simpa using this
  · rintro ⟨t, rfl⟩
    exact ⟨t.reverse, by simp⟩

/-- The code's placeholder test recognises exactly the strings of the form
two opening braces, an arbitrary inner text, two closing braces. -/
theorem placeholderCheck_iff (s : String) :
    placeholderCheck s = true ↔
      ∃ mid, s.data = '\x7b' :: '\x7b' :: (mid ++ ['\x7d', '\x7d']) := by
  unfold placeholderCheck
  rw [Bool.and_eq_true, hasPrefixCL_iff, hasSuffixCL_iff]
  constructor
  · rintro ⟨⟨t, ht⟩, ⟨t', ht'⟩⟩
    rw [ht] at ht'
    match t', ht' with
    | [], h => simp at h
    | [a], h => simp at h
    | a :: b :: mid, h =>
      simp only [List.cons_append, List.cons.injEq] at h
      obtain ⟨rfl, rfl, h⟩ := h
      simp only [List.nil_append] at h
      exact ⟨mid, by simp [ht, h]⟩
  · rintro ⟨mid, h⟩
    refine ⟨⟨mid ++ ['\x7d', '\x7d'], by simp [h]⟩, ⟨'\x7b' :: '\x7b' :: mid, by simp [h]⟩⟩

/-- The extracted placeholder path is the inner text, whitespace-trimmed. -/
theorem placeholderPath_eq (mid : List Char) :
    placeholderPath (String.mk ('\x7b' :: '\x7b' :: (mid ++ ['\x7d', '\x7d']))) =
      String.mk (pyStripCL mid) := by
  unfold placeholderPath
  have h2 : mid ++ ['\x7d', '\x7d'] = (mid ++ ['\x7d']) ++ ['\x7d'] := by simp
  simp only [String.data]
  rw [List.drop, List.drop, List.drop_zero, h2, List.dropLast_concat, List.dropLast_concat]

/-- Unfolding equation of `_apply_fhir_mapping` on a mapping under a
non-empty `fhir_mapping`. -/
theorem apply_fhir_obj_eq (m : List (String × String)) (b : Json) (hne : m.isEmpty = false)
    (kvs : List (String × Json)) :
    _apply_fhir_mapping (.obj kvs) m b = .obj (applyKvs kvs m b) := by
  unfold _apply_fhir_mapping
  rw [hne]
  rfl

/-- Unfolding equation of `_apply_fhir_mapping` on a sequence under a
non-empty `fhir_mapping`. -/
theorem apply_fhir_arr_eq (m : List (String × String)) (b : Json) (hne : m.isEmpty = false)
    (xs : List Json) :
    _apply_fhir_mapping (.arr xs) m b = .arr (applyArr xs m b) := by
  unfold _apply_fhir_mapping
  rw [hne]
  rfl

/-- The dict comprehension of `_apply_fhir_mapping` is the per-value
substitution, mapped over the entries. -/
theorem applyKvs_eq_map (m : List (String × String)) (b : Json) :
    ∀ kvs, applyKvs kvs m b = kvs.map (fun kv => (kv.1, substVal m b kv.2)) := by
  intro kvs
  induction kvs with
  | nil => rfl
  | cons kv rest ih =>
    obtain ⟨k, v⟩ := kv
    cases v with
    | str s =>
      by_cases hc : placeholderCheck s = true <;>
        simp [applyKvs, substVal, hc, ih]
    | null => simp [applyKvs, substVal, ih]
    | bool _ => simp [applyKvs, substVal, ih]
    | num _ => simp [applyKvs, substVal, ih]
    | arr _ => simp [applyKvs, substVal, ih]
    | obj _ => simp [applyKvs, substVal, ih]

/-- The list comprehension of `_apply_fhir_mapping` is the recursive called
mapped over the elements. -/
theorem applyArr_eq_map (m : List (String × String)) (b : Json) :
    ∀ xs, applyArr xs m b = xs.map (fun x => _apply_fhir_mapping x m b) := by
  intro xs
  induction xs with
  | nil => rfl
  | cons x rest ih => simp [applyArr, ih]

/-- C1: with a non-empty `fhir_mapping`, `apply` is a recursive structural
copy. Scalar mapping values — non-placeholder strings, numbers, booleans,
nulls — pass through unchanged; a placeholder string value becomes the
path-navigation result for its trimmed inner path; a nested mapping is
rebuilt entry by entry through the same substitution; a nested sequence is
rebuilt element by element; and the placeholder test matches exactly the
strings framed by doubled braces, with the path trimmed of surrounding
whitespace. -/
theorem apply_mapping_recursive_copy (m : List (String × String)) (b : Json) (hm : m ≠ []) :
    (∀ s, placeholderCheck s = false → substVal m b (.str s) = .str s) ∧
    (∀ n, substVal m b (.num n) = .num n) ∧
    (∀ bo, substVal m b (.bool bo) = .bool bo) ∧
    (substVal m b .null = .null) ∧
    (∀ s, placeholderCheck s = true → substVal m b (.str s) = _get_path b (placeholderPath s)) ∧
    (∀ kvs, _apply_fhir_mapping (.obj kvs) m b =
      .obj (kvs.map (fun kv => (kv.1, substVal m b kv.2)))) ∧
    (∀ xs, _apply_fhir_mapping (.arr xs) m b =
      .arr (xs.map (fun x => _apply_fhir_mapping x m b))) ∧
    (∀ s, placeholderCheck s = true ↔
      ∃ mid, s.data = '\x7b' :: '\x7b' :: (mid ++ ['\x7d', '\x7d'])) ∧
    (∀ mid, placeholderPath (String.mk ('\x7b' :: '\x7b' :: (mid ++ ['\x7d', '\x7d']))) =
      String.mk (pyStripCL mid)) := by
  have hne : m.isEmpty = false := by cases m with
    | nil => exact absurd rfl hm
    | cons a t => rfl
  refine ⟨?_, ?_, ?_, ?_, ?_, ?_, ?_, placeholderCheck_iff, placeholderPath_eq⟩
  · intro s hc
    simp [substVal, hc, _apply_fhir_mapping, hne]
  · intro n; simp [substVal, _apply_fhir_mapping, hne]
  · intro bo; simp [substVal, _apply_fhir_mapping, hne]
  · simp [substVal, _apply_fhir_mapping, hne]
  · intro s hc; simp [substVal, hc]
  · intro kvs
    rw [apply_fhir_obj_eq m b hne, applyKvs_eq_map]
  · intro xs
    rw [apply_fhir_arr_eq m b hne, applyArr_eq_map]

/-- Witness for C1: a concrete template under a concrete non-empty mapping,
checking a scalar pass-through obtained from the theorem. -/
theorem apply_mapping_recursive_copy_witness :
    substVal [("pid", "entry[0].resource.id")] .null (.num 7) = .num 7 :=
  (apply_mapping_recursive_copy [("pid", "entry[0].resource.id")] .null (by decide)).2.1 7

/-- No fence occurs in a backtick-free text. -/
theorem findSub_backtick_free : ∀ l, (∀ c ∈ l, c ≠ '\x60') → findSub fenceCL l = none := by
  intro l
  induction l with
  | nil => intro _; rfl
  | cons c t ih =>
    intro h
    have hc : c ≠ '\x60' := h c (List.mem_cons_self c t)
    have hd : ('\x60' = c) = False := eq_false (fun hcc => hc hcc.symm)
    have hp : hasPrefixCL fenceCL (c :: t) = false := by
      simp [fenceCL, hasPrefixCL, hd]
    simp [findSub, hp, ih (fun x hx => h x (List.mem_cons_of_mem c hx))]

/-- In a backtick-free text followed by a fence, the first fence occurrence
is exactly at the end of the text. -/
theorem findSub_concat : ∀ body, (∀ c ∈ body, c ≠ '\x60') →
    findSub fenceCL (body ++ fenceCL) = some body.length := by
  intro body
  induction body with
  | nil => intro _; rfl
  | cons c t ih =>
    intro h
    have hc : c ≠ '\x60' := h c (List.mem_cons_self c t)
    have hd : ('\x60' = c) = False := eq_false (fun hcc => hc hcc.symm)
    have hp : hasPrefixCL fenceCL (c :: (t ++ fenceCL)) = false := by
      simp [fenceCL, hasPrefixCL, hd]
    simp [findSub, hp, ih (fun x hx => h x (List.mem_cons_of_mem c hx))]

/-- A text starting with a fence has its first fence occurrence at index 0. -/
theorem findSub_fence_head (r : List Char) : findSub fenceCL (fenceCL ++ r) = some 0 := by
  simp [fenceCL, findSub, hasPrefixCL]

/-- The fence stripper on a json-tagged fenced block with backtick-free
contents returns the stripped contents. -/
theorem stripFence_fenced (body : List Char) (h : ∀ c ∈ body, c ≠ '\x60') :
    stripFenceCL (fenceCL ++ (jsonTagCL ++ (body ++ fenceCL))) = pyStripCL body := by
  have h1 : findSub fenceCL (fenceCL ++ (jsonTagCL ++ (body ++ fenceCL))) = some 0 :=
    findSub_fence_head _
  have h2 : (fenceCL ++ (jsonTagCL ++ (body ++ fenceCL))).drop (0 + 3) =
      jsonTagCL ++ (body ++ fenceCL) := List.drop_left fenceCL _
  have h3 : hasPrefixCL jsonTagCL (jsonTagCL ++ (body ++ fenceCL)) = true :=
    (hasPrefixCL_iff _ _).mpr ⟨_, rfl⟩
  have h4 : (jsonTagCL ++ (body ++ fenceCL)).drop 4 = body ++ fenceCL :=
    List.drop_left jsonTagCL _
  have h5 : findSub fenceCL (body ++ fenceCL) = some body.length := findSub_concat body h
  have h6 : (body ++ fenceCL).take body.length = body := List.take_left ..
  unfold stripFenceCL
  rw [h1]
  simp only [h2, h3, if_true, h4, h5, h6]

/-- On a backtick-free text the regex does not match and the text is left
unchanged. -/
theorem stripFence_no_fence (l : List Char) (h : ∀ c ∈ l, c ≠ '\x60') :
    stripFenceCL l = l := by
  unfold stripFenceCL
  rw [findSub_backtick_free l h]

/-- C8: the plan synthesizer parses the model text after stripping an
optional code fence (json-tagged fenced content is extracted and stripped;
fence-free text is parsed as is), and a parse failure yields the empty plan
instead of an exception, while a successful parse yields the parsed plan. -/
theorem plan_emr_fallback_empty_plan (loads : String → Option Json) (text : String) :
    (_parse_json_from_llm loads text = none → plan_emr loads text = emptyPlanJson) ∧
    (∀ p, _parse_json_from_llm loads text = some p → plan_emr loads text = p) ∧
    (∀ body : List Char, (∀ c ∈ body, c ≠ '\x60') →
      stripFenceCL (fenceCL ++ (jsonTagCL ++ (body ++ fenceCL))) = pyStripCL body) ∧
    (∀ l : List Char, (∀ c ∈ l, c ≠ '\x60') → stripFenceCL l = l) := by
  refine ⟨?_, ?_, stripFence_fenced, stripFence_no_fence⟩
  · intro h; unfold plan_emr; rw [h]
  · intro p h; unfold plan_emr; rw [h]

/-- Witness for C8: plain non-JSON text (a `loads` that raises) yields the
empty plan. -/
theorem plan_emr_fallback_empty_plan_witness :
    plan_emr (fun _ => none) "the model refused to answer" = emptyPlanJson :=
  (plan_emr_fallback_empty_plan (fun _ => none) "the model refused to answer").1 rfl

/-- The spec loop, started at position `k`, stops at the first failing spec:
with the spec at offset `i` failing and all earlier specs succeeding, the
result is that spec's failure result and the calls issued are exactly
positions `k` through `k + i`. -/
theorem execLoop_halts (http : Nat → RSpec → HttpOutcome) (bundle : Json) (creds : Option Creds) :
    ∀ (specs : List RSpec) (k i : Nat) (s : RSpec) (ls : Option Nat) (lb : String),
      specs.get? i = some s →
      FailOutcome (http (k + i) s) →
      (∀ j t, j < i → specs.get? j = some t → SuccessOutcome (http (k + j) t)) →
      (execLoop http bundle creds specs k ls lb).1 = specFailResult (http (k + i) s) ∧
      (execLoop http bundle creds specs k ls lb).2.map IssuedCall.idx = List.range' k (i + 1) := by
  intro specs
  induction specs with
  | nil => intro k i s ls lb hget _ _; simp at hget
  | cons spec rest ih =>
    intro k i s ls lb hget hfail hpre
    cases i with
    | zero =>
      have hs : spec = s := by simpa using hget
      subst hs
      rw [Nat.add_zero] at hfail ⊢
      rcases hfail with ⟨e, he⟩ | ⟨st, text, hok, hst⟩
      · simp [execLoop, he, specFailResult, List.range', mkCall]
      · simp [execLoop, hok, hst, specFailResult, List.range', mkCall]
    | succ i' =>
      obtain ⟨st, text, hok, hlt⟩ := hpre 0 spec (Nat.succ_pos i') rfl
      rw [Nat.add_zero] at hok
      have hnot : ¬ 400 ≤ st := by omega
      have harith : k + 1 + i' = k + (i' + 1) := by omega
      have ihres := ih (k + 1) i' s (some st) (strTake text 2000) hget
        (by rw [harith]; exact hfail)
        (fun j t hj hgt => by
          have hsucc := hpre (j + 1) t (by omega) hgt
          rwa [show k + 1 + j = k + (j + 1) by omega])
      have hstep : execLoop http bundle creds (spec :: rest) k ls lb =
          ((execLoop http bundle creds rest (k + 1) (some st) (strTake text 2000)).1,
           mkCall k spec bundle creds ::
             (execLoop http bundle creds rest (k + 1) (some st) (strTake text 2000)).2) := by
        simp [execLoop, hok, hnot]
      refine ⟨?_, ?_⟩
      · rw [hstep]
        dsimp only
        rw [ihres.1, harith]
      · rw [hstep]
        dsimp only [List.map]
        rw [ihres.2]
        show (mkCall k spec bundle creds).idx :: List.range' (k + 1) (i' + 1) =
          List.range' k (i' + 1 + 1)
        simp [mkCall, List.range']

/-- C6: for a plan whose selected sequence has at least two specs, if the
spec at position `i` fails (HTTP status at least 400 or a raised transport
error) and every earlier spec succeeded, execution halts there: the
executor returns ok = false with status, body and error reflecting that
spec's outcome, and the calls issued are exactly positions 0 through `i` —
no later spec is ever issued. -/
theorem executor_halts_on_failure (http : Nat → RSpec → HttpOutcome) (plan : RequestPlan)
    (bundle : Json) (creds : Option Creds) (eg : Bool) (i : Nat) (s : RSpec)
    (hlen : 2 ≤ (if eg then plan.get_fhir else plan.push_fhir).length)
    (hget : (if eg then plan.get_fhir else plan.push_fhir).get? i = some s)
    (hfail : FailOutcome (http i s))
    (hpre : ∀ j t, j < i → (if eg then plan.get_fhir else plan.push_fhir).get? j = some t →
      SuccessOutcome (http j t)) :
    (execute_request_plan http plan bundle creds eg).1 = specFailResult (http i s) ∧
    (execute_request_plan http plan bundle creds eg).2.map IssuedCall.idx =
      List.range' 0 (i + 1) := by
  set specs := if eg then plan.get_fhir else plan.push_fhir with hspecs
  have hne : specs.isEmpty = false := by
    cases hsp : specs with
    | nil => rw [hsp] at hlen; simp at hlen
    | cons a t => rfl
  have hmain := execLoop_halts http bundle creds specs 0 i s none "" hget
    (by rw [Nat.zero_add]; exact hfail)
    (fun j t hj hg => by rw [Nat.zero_add]; exact hpre j t hj hg)
  rw [Nat.zero_add] at hmain
  have hrun : execute_request_plan http plan bundle creds eg =
      execLoop http bundle creds specs 0 none "" := by
    unfold execute_request_plan
    simp only [hne]
    rfl
  rw [hrun]
  exact hmain

/-- Witness for C6: a concrete two-spec plan whose first call returns HTTP
500 — the result reflects that response and only the first spec is issued. -/
theorem executor_halts_on_failure_witness :
    (execute_request_plan firstFailsHttp twoSpecPlan .null none false).1 =
      specFailResult (.ok (500, "boom")) ∧
    (execute_request_plan firstFailsHttp twoSpecPlan .null none false).2.map IssuedCall.idx =
      [0] :=
  executor_halts_on_failure firstFailsHttp twoSpecPlan .null none false 0 {}
    (by decide) rfl (Or.inr ⟨500, "boom", rfl, by norm_num⟩)
    (fun j t hj _ => absurd hj (Nat.not_lt_zero j))

/-- Looking up the key just stored returns the stored entry. -/
theorem cacheGet_cacheSet (cache : TokenCache) (k : CacheKey) (e : TokenEntry) :
    cacheGet (cacheSet cache k e) k = some e := by
  induction cache with
  | nil => simp [cacheSet, cacheGet]
  | cons kv rest ih =>
    obtain ⟨k', e'⟩ := kv
    by_cases h : k' = k <;> simp [cacheSet, cacheGet, h, ih]

/-- A fresh cache hit in the params-based EMR broker: cached token
returned, cache unchanged, no exchange. -/
theorem emr_params_hit (fetch : LoginOracle) (env : EnvCfg) (now : Int)
    (cid csec burl : String) (cache : TokenCache)
    (h1 : cid ≠ "") (h2 : csec ≠ "") (h3 : pyStrip cid ≠ "") (h4 : pyStrip csec ≠ "")
    (c : TokenEntry) (hc : cacheGet cache (paramsKey "emr" env cid csec burl) = some c)
    (hv : now < c.expires_at) :
    get_eka_emr_headers_from_params fetch env now "" cid csec burl cache =
      .ok ((bearerHeaders c.access_token, paramsBase env burl), cache, false) := by
  unfold get_eka_emr_headers_from_params
  rw [paramsKey] at hc
  simp [h1, h2, h3, h4, hc, hv]

/-- A params-based EMR broker call with no fresh cache entry performs the
exchange: with a non-empty response token it stores
`expires_at = now + 1800 - 60` and reports the exchange; with an empty
response token it raises. -/
theorem emr_params_exchange (fetch : LoginOracle) (env : EnvCfg) (now : Int)
    (cid csec burl : String) (cache : TokenCache)
    (h1 : cid ≠ "") (h2 : csec ≠ "") (h3 : pyStrip cid ≠ "") (h4 : pyStrip csec ≠ "")
    (hmiss : cacheGet cache (paramsKey "emr" env cid csec burl) = none ∨
      ∃ c, cacheGet cache (paramsKey "emr" env cid csec burl) = some c ∧ c.expires_at ≤ now) :
    ((fetch (pyStrip cid) (pyStrip csec) (paramsBase env burl)).access_token ≠ "" →
      get_eka_emr_headers_from_params fetch env now "" cid csec burl cache =
        .ok ((bearerHeaders (fetch (pyStrip cid) (pyStrip csec) (paramsBase env burl)).access_token,
              paramsBase env burl),
             cacheSet cache (paramsKey "emr" env cid csec burl)
               { access_token := (fetch (pyStrip cid) (pyStrip csec) (paramsBase env burl)).access_token
                 expires_at := now + 1800 - 60 },
             true)) ∧
    ((fetch (pyStrip cid) (pyStrip csec) (paramsBase env burl)).access_token = "" →
      get_eka_emr_headers_from_params fetch env now "" cid csec burl cache =
        .error "Connect Login response missing access_token") := by
  constructor <;> intro htok <;>
    · unfold get_eka_emr_headers_from_params _fetch_connect_token_from_params
      rw [paramsKey] at hmiss
      rcases hmiss with hmiss | ⟨c, hc, hle⟩
      · simp [h1, h2, h3, h4, hmiss, htok, paramsKey]
      · simp [h1, h2, h3, h4, hc, htok, not_lt.mpr hle, paramsKey]

/-- A fresh cache hit in the params-based scribe broker. -/
theorem scribe_params_hit (fetch : LoginOracle) (respEnv : FetchResp) (env : EnvCfg)
    (now : Int) (cid csec burl : String) (cache : TokenCache) (sc : Option TokenEntry)
    (h1 : cid ≠ "") (h2 : csec ≠ "") (h3 : pyStrip cid ≠ "") (h4 : pyStrip csec ≠ "")
    (c : TokenEntry) (hc : cacheGet cache (paramsKey "scribe" env cid csec burl) = some c)
    (hv : now < c.expires_at) :
    get_eka_scribe_headers_from_params fetch respEnv env now "" cid csec burl cache sc =
      .ok ((bearerHeaders c.access_token, paramsBase env burl), cache, sc, false) := by
  unfold get_eka_scribe_headers_from_params
  rw [paramsKey] at hc
  simp [h1, h2, h3, h4, hc, hv]

/-- A params-based scribe broker call with no fresh cache entry performs
the exchange and stores `expires_at = now + 1800 - 60`. -/
theorem scribe_params_exchange (fetch : LoginOracle) (respEnv : FetchResp) (env : EnvCfg)
    (now : Int) (cid csec burl : String) (cache : TokenCache) (sc : Option TokenEntry)
    (h1 : cid ≠ "") (h2 : csec ≠ "") (h3 : pyStrip cid ≠ "") (h4 : pyStrip csec ≠ "")
    (hmiss : cacheGet cache (paramsKey "scribe" env cid csec burl) = none ∨
      ∃ c, cacheGet cache (paramsKey "scribe" env cid csec burl) = some c ∧ c.expires_at ≤ now)
    (htok : (fetch (pyStrip cid) (pyStrip csec) (paramsBase env burl)).access_token ≠ "") :
    get_eka_scribe_headers_from_params fetch respEnv env now "" cid csec burl cache sc =
      .ok ((bearerHeaders (fetch (pyStrip cid) (pyStrip csec) (paramsBase env burl)).access_token,
            paramsBase env burl),
           cacheSet cache (paramsKey "scribe" env cid csec burl)
             { access_token := (fetch (pyStrip cid) (pyStrip csec) (paramsBase env burl)).access_token
               expires_at := now + 1800 - 60 },
           sc, true) := by
  unfold get_eka_scribe_headers_from_params _fetch_connect_token_from_params
  rw [paramsKey] at hmiss
  rcases hmiss with hmiss | ⟨c, hc, hle⟩
  · simp [h1, h2, h3, h4, hmiss, htok, paramsKey]
  · simp [h1, h2, h3, h4, hc, htok, not_lt.mpr hle, paramsKey]

/-- C4: for a params-based broker call on the client-credential branch
(key `(domain, client_id, client_secret, base_url)`): a cache entry with
`expires_at > now` is returned without a login exchange and the cache is
unchanged; an exchange happens exactly on a missing or expired entry (it
is also where an empty-token login response raises); hence a first call on
a cold key exchanges once, a second call within the stored validity window
exchanges zero times and returns the same token, and a call at or after
the stored expiry exchanges exactly once more. Stated for the EMR broker,
with the hit and exchange clauses mirrored for the scribe broker. -/
theorem broker_cache_discipline (fetch : LoginOracle) (env : EnvCfg)
    (cid csec burl : String) (cache : TokenCache)
    (h1 : cid ≠ "") (h2 : csec ≠ "") (h3 : pyStrip cid ≠ "") (h4 : pyStrip csec ≠ "") :
    (∀ now c, cacheGet cache (paramsKey "emr" env cid csec burl) = some c →
      now < c.expires_at →
      get_eka_emr_headers_from_params fetch env now "" cid csec burl cache =
        .ok ((bearerHeaders c.access_token, paramsBase env burl), cache, false)) ∧
    (∀ now, (cacheGet cache (paramsKey "emr" env cid csec burl) = none ∨
        ∃ c, cacheGet cache (paramsKey "emr" env cid csec burl) = some c ∧
          c.expires_at ≤ now) →
      ((fetch (pyStrip cid) (pyStrip csec) (paramsBase env burl)).access_token ≠ "" →
        get_eka_emr_headers_from_params fetch env now "" cid csec burl cache =
          .ok ((bearerHeaders
                  (fetch (pyStrip cid) (pyStrip csec) (paramsBase env burl)).access_token,
                paramsBase env burl),
               cacheSet cache (paramsKey "emr" env cid csec burl)
                 { access_token :=
                     (fetch (pyStrip cid) (pyStrip csec) (paramsBase env burl)).access_token
                   expires_at := now + 1800 - 60 },
               true)) ∧
      ((fetch (pyStrip cid) (pyStrip csec) (paramsBase env burl)).access_token = "" →
        get_eka_emr_headers_from_params fetch env now "" cid csec burl cache =
          .error "Connect Login response missing access_token")) ∧
    (∀ t1 t2 t3, cacheGet cache (paramsKey "emr" env cid csec burl) = none →
      (fetch (pyStrip cid) (pyStrip csec) (paramsBase env burl)).access_token ≠ "" →
      t2 < t1 + 1800 - 60 → t1 + 1800 - 60 ≤ t3 →
      (get_eka_emr_headers_from_params fetch env t1 "" cid csec burl cache =
        .ok ((bearerHeaders
                (fetch (pyStrip cid) (pyStrip csec) (paramsBase env burl)).access_token,
              paramsBase env burl),
             cacheSet cache (paramsKey "emr" env cid csec burl)
               { access_token :=
                   (fetch (pyStrip cid) (pyStrip csec) (paramsBase env burl)).access_token
                 expires_at := t1 + 1800 - 60 },
             true)) ∧
      (get_eka_emr_headers_from_params fetch env t2 "" cid csec burl
          (cacheSet cache (paramsKey "emr" env cid csec burl)
            { access_token :=
                (fetch (pyStrip cid) (pyStrip csec) (paramsBase env burl)).access_token
              expires_at := t1 + 1800 - 60 }) =
        .ok ((bearerHeaders
                (fetch (pyStrip cid) (pyStrip csec) (paramsBase env burl)).access_token,
              paramsBase env burl),
             cacheSet cache (paramsKey "emr" env cid csec burl)
               { access_token :=
                   (fetch (pyStrip cid) (pyStrip csec) (paramsBase env burl)).access_token
                 expires_at := t1 + 1800 - 60 },
             false)) ∧
      (get_eka_emr_headers_from_params fetch env t3 "" cid csec burl
          (cacheSet cache (paramsKey "emr" env cid csec burl)
            { access_token :=
                (fetch (pyStrip cid) (pyStrip csec) (paramsBase env burl)).access_token
              expires_at := t1 + 1800 - 60 }) =
        .ok ((bearerHeaders
                (fetch (pyStrip cid) (pyStrip csec) (paramsBase env burl)).access_token,
              paramsBase env burl),
             cacheSet
               (cacheSet cache (paramsKey "emr" env cid csec burl)
                 { access_token :=
                     (fetch (pyStrip cid) (pyStrip csec) (paramsBase env burl)).access_token
                   expires_at := t1 + 1800 - 60 })
               (paramsKey "emr" env cid csec burl)
               { access_token :=
                   (fetch (pyStrip cid) (pyStrip csec) (paramsBase env burl)).access_token
                 expires_at := t3 + 1800 - 60 },
             true))) ∧
    (∀ respEnv sc now c, cacheGet cache (paramsKey "scribe" env cid csec burl) = some c →
      now < c.expires_at →
      get_eka_scribe_headers_from_params fetch respEnv env now "" cid csec burl cache sc =
        .ok ((bearerHeaders c.access_token, paramsBase env burl), cache, sc, false)) ∧
    (∀ respEnv sc now, (cacheGet cache (paramsKey "scribe" env cid csec burl) = none ∨
        ∃ c, cacheGet cache (paramsKey "scribe" env cid csec burl) = some c ∧
          c.expires_at ≤ now) →
      (fetch (pyStrip cid) (pyStrip csec) (paramsBase env burl)).access_token ≠ "" →
      get_eka_scribe_headers_from_params fetch respEnv env now "" cid csec burl cache sc =
        .ok ((bearerHeaders
                (fetch (pyStrip cid) (pyStrip csec) (paramsBase env burl)).access_token,
              paramsBase env burl),
             cacheSet cache (paramsKey "scribe" env cid csec burl)
               { access_token :=
                   (fetch (pyStrip cid) (pyStrip csec) (paramsBase env burl)).access_token
                 expires_at := now + 1800 - 60 },
             sc, true)) := by
  refine ⟨fun now c hc hv => emr_params_hit fetch env now cid csec burl cache h1 h2 h3 h4 c hc hv,
    fun now hmiss => emr_params_exchange fetch env now cid csec burl cache h1 h2 h3 h4 hmiss,
    ?_,
    fun respEnv sc now c hc hv =>
      scribe_params_hit fetch respEnv env now cid csec burl cache sc h1 h2 h3 h4 c hc hv,
    fun respEnv sc now hmiss htok =>
      scribe_params_exchange fetch respEnv env now cid csec burl cache sc h1 h2 h3 h4 hmiss htok⟩
  intro t1 t2 t3 hnone htok ht2 ht3
  refine ⟨(emr_params_exchange fetch env t1 cid csec burl cache h1 h2 h3 h4 (Or.inl hnone)).1 htok,
    emr_params_hit fetch env t2 cid csec burl _ h1 h2 h3 h4 _ (cacheGet_cacheSet _ _ _) ht2,
    (emr_params_exchange fetch env t3 cid csec burl _ h1 h2 h3 h4
      (Or.inr ⟨_, cacheGet_cacheSet _ _ _, ht3⟩)).1 htok⟩

/-- Witness for C4: a concrete warm-cache call returns the cached token
without an exchange and leaves the cache unchanged. -/
theorem broker_cache_discipline_witness :
    get_eka_emr_headers_from_params freshTokenFetch {} 100 "" "id" "sec" "https://x"
        [(("emr", "id", "sec", "https://x"), { access_token := "cached", expires_at := 500 })] =
      .ok ((bearerHeaders "cached", "https://x"),
           [(("emr", "id", "sec", "https://x"), { access_token := "cached", expires_at := 500 })],
           false) :=
  (broker_cache_discipline freshTokenFetch {} "id" "sec" "https://x"
      [(("emr", "id", "sec", "https://x"), { access_token := "cached", expires_at := 500 })]
      (by decide) (by decide) (by decide) (by decide)).1 100
    { access_token := "cached", expires_at := 500 } rfl (by decide)

/-- C3 (amended): the env-configured scribe exchange stores
`expires_at = now + (expires_in - 60)` using the response's `expires_in`
(default 1800); the params-based broker exchanges instead store
`expires_at = now + 1800 - 60` with a hard-coded 1800-second lifetime,
ignoring whatever `expires_in` the login response declares (the conclusion
holds for every login oracle `fetch`). -/
theorem broker_expiry_amended (fetch : LoginOracle) (env : EnvCfg) (now : Int)
    (cid csec burl : String) (cache : TokenCache)
    (h1 : cid ≠ "") (h2 : csec ≠ "") (h3 : pyStrip cid ≠ "") (h4 : pyStrip csec ≠ "")
    (hmiss : cacheGet cache (paramsKey "emr" env cid csec burl) = none ∨
      ∃ c, cacheGet cache (paramsKey "emr" env cid csec burl) = some c ∧
        c.expires_at ≤ now)
    (htok : (fetch (pyStrip cid) (pyStrip csec) (paramsBase env burl)).access_token ≠ "") :
    (∃ cache', get_eka_emr_headers_from_params fetch env now "" cid csec burl cache =
        .ok ((bearerHeaders
                (fetch (pyStrip cid) (pyStrip csec) (paramsBase env burl)).access_token,
              paramsBase env burl), cache', true) ∧
      cacheGet cache' (paramsKey "emr" env cid csec burl) =
        some { access_token :=
                 (fetch (pyStrip cid) (pyStrip csec) (paramsBase env burl)).access_token
               expires_at := now + 1800 - 60 }) ∧
    (∀ resp t, resp.access_token ≠ "" →
      _fetch_connect_token_scribe resp t =
        .ok { access_token := resp.access_token
              expires_at := t + ((resp.expires_in.getD 1800) - 60) }) := by
  constructor
  · exact ⟨_, (emr_params_exchange fetch env now cid csec burl cache h1 h2 h3 h4 hmiss).1 htok,
      cacheGet_cacheSet _ _ _⟩
  · intro resp t htok'
    unfold _fetch_connect_token_scribe
    simp [htok']

/-- Witness for C3's amended claim: the env-scribe exchange at a concrete
response with a ten-minute `expires_in` stores `now + 540`. -/
theorem broker_expiry_amended_witness :
    _fetch_connect_token_scribe { access_token := "tok", expires_in := some 600 } 100 =
      .ok { access_token := "tok", expires_at := 640 } :=
  (broker_expiry_amended freshTokenFetch {} 0 "id" "sec" "https://x" []
      (by decide) (by decide) (by decide) (by decide) (Or.inl rfl) (by decide)).2
    { access_token := "tok", expires_in := some 600 } 100 (by decide)

/-- Counterexample for C3 as stated: the login response declares
`expires_in = 7200`, yet the params-based EMR broker stores
`expires_at = 2740 = 1000 + 1800 - 60`, not `1000 + 7200 - 60`. -/
theorem broker_expiry_counterexample :
    get_eka_emr_headers_from_params longExpiryFetch {} 1000 "" "id" "sec" "https://x" [] =
      .ok ((bearerHeaders "tok", "https://x"),
           [(("emr", "id", "sec", "https://x"),
             { access_token := "tok", expires_at := 2740 })],
           true) ∧
    (2740 : Int) ≠ 1000 + 7200 - 60 :=
  ⟨rfl, by decide⟩
